import Mathlib

/-!
Verification of the Vulkan scheduler / fence / presentation / memory-allocator
core of the sumi emulator against its natural-language specification.

The C++ sources are shallowly embedded:
* Vulkan object handles (`VkRenderPass`, `VkFramebuffer`, pipeline pointers)
  are modelled as `Nat`, with `0` standing for `VK_NULL_HANDLE` / `nullptr`.
* The singly linked list of type-erased closures inside
  `Scheduler::CommandChunk` (walked `first → GetNext() → …` by `ExecuteAll`)
  is modelled as a Lean `List` in insertion order; `Record` appends at the
  `last` pointer, i.e. at the end of the list.
* Thread interleavings are sequentialised: the worker thread draining the
  FIFO `work_queue` is an explicit `RunWorker` step, and a blocking
  `WaitUntilTick` models the fact that, by the time the wait returns, the
  worker has drained every chunk dispatched before it and the GPU timeline
  has reached the awaited tick.
* Exceptions are modelled by explicit outcome values.
-/

namespace Vulkan

/-- Two-dimensional extent (`VkExtent2D`): width and height in pixels. -/
structure VkExtent2D where
  width : Nat
  height : Nat
deriving DecidableEq, Repr

/-- One deferred command recorded into a `CommandChunk`.  User closures are
identified by an id; the commands the scheduler itself records
(`RequestRenderpass`'s begin, `EndRenderPass`'s end+barriers, and
`SubmitExecution`'s submit closure) are distinguished constructors. -/
inductive RecordedCommand where
  | closure (id : Nat)
  | beginRenderPass (renderpass : Nat) (framebuffer : Nat) (render_area : VkExtent2D)
  | endRenderPass (barrier_count : Nat)
  | submit (signal_value : Nat)
deriving DecidableEq, Repr

/-- `Scheduler::CommandChunk`: the arena-backed singly linked list of recorded
commands (modelled as a list in `first → last` order) plus the
"contains a submission" marker set by `MarkSubmit`. -/
structure CommandChunk where
  commands : List RecordedCommand := []
  submit : Bool := false
deriving DecidableEq, Repr

/-- `CommandChunk::Empty`: the chunk holds no commands. -/
def CommandChunk.Empty (c : CommandChunk) : Bool :=
  c.commands.isEmpty

/-- `CommandChunk::HasSubmit`. -/
def CommandChunk.HasSubmit (c : CommandChunk) : Bool :=
  c.submit

/-- `Scheduler::CommandChunk::ExecuteAll`: walks the linked list from `first`,
executing (and destroying) each command in order, then resets the chunk state
(`submit = false`, `command_offset = 0`, `first = last = nullptr`).  Returns
the execution trace in list order together with the reset chunk. -/
def CommandChunk.ExecuteAll (c : CommandChunk) : List RecordedCommand × CommandChunk :=
  (c.commands, { commands := [], submit := false })

/-- Modelled from the spec: the `MasterSemaphore` implementation
(`vk_master_semaphore.cpp/.h`) is not among the repository's provided source
files — only its callers in `vk_scheduler.cpp` are.  Spec §2/§3/§4.2 describe
it as wrapping "a monotonically increasing counter (tick) signaled by the host
GPU": `NextTick` issues ticks that are strictly increasing per submission,
`PeekNextTick` reads the value the next submission will get, and "a tick is
completed once the host GPU timeline value ≥ tick" (`IsSignaled`/`GetValue`).
`current_tick` is the next tick to be issued, `gpu_tick` the host GPU timeline
value (the largest signaled tick). -/
structure MasterSemaphore where
  current_tick : Nat
  gpu_tick : Nat
deriving DecidableEq, Repr

/-- Modelled from the spec: monotonic tick issuance — returns the tick that
this submission's queue submit will signal, and bumps the counter so ticks
are strictly increasing per issued submission. -/
def MasterSemaphore.NextTick (m : MasterSemaphore) : Nat × MasterSemaphore :=
  (m.current_tick, { m with current_tick := m.current_tick + 1 })

/-- Modelled from the spec: reads the tick the next submission will receive,
without issuing it. -/
def MasterSemaphore.PeekNextTick (m : MasterSemaphore) : Nat :=
  m.current_tick

/-- Modelled from the spec: "a tick is completed once the host GPU timeline
value ≥ tick". -/
def MasterSemaphore.IsSignaled (m : MasterSemaphore) (tick : Nat) : Bool :=
  tick ≤ m.gpu_tick

/-- Modelled from the spec: the latest timeline value signaled by the GPU. -/
def MasterSemaphore.GetValue (m : MasterSemaphore) : Nat :=
  m.gpu_tick

/-- Modelled from the spec: the host GPU signalling the timeline up to `v`
(the timeline counter is monotonically increasing, so it never moves back). -/
def MasterSemaphore.SignalTimeline (m : MasterSemaphore) (v : Nat) : MasterSemaphore :=
  { m with gpu_tick := max m.gpu_tick v }

/-- Modelled from the spec: at process start no submission has been issued;
the timeline starts at 0 and the first issued tick is 1 (tick 0 is never the
tick of a submission — `InnerFence` uses `wait_tick == 0` as the
"never queued" sentinel). -/
def MasterSemaphore.initial : MasterSemaphore :=
  { current_tick := 1, gpu_tick := 0 }

/-- The scheduler's change-detection state cache (`Scheduler::State`): the
currently bound render pass / framebuffer / render area, the bound graphics
pipeline, and the rescaling flag.  Handles are `Nat` with `0 = null`. -/
structure SchedulerState where
  renderpass : Nat := 0
  framebuffer : Nat := 0
  render_area : VkExtent2D := ⟨0, 0⟩
  graphics_pipeline : Nat := 0
  rescaling_defined : Bool := false
  is_rescaling : Bool := false
deriving DecidableEq, Repr

/-- The data `Scheduler::RequestRenderpass` reads from a `Framebuffer`:
`RenderPass()`, `Handle()`, `RenderArea()` and `NumImages()` (the attachment
images/ranges only feed the barrier count here). -/
structure Framebuffer where
  renderPass : Nat
  handle : Nat
  renderArea : VkExtent2D
  numImages : Nat
deriving DecidableEq, Repr

/-- `MAX_BARRIERS` in `Scheduler::EndRenderPass`: the size of the fixed
on-stack `std::array<VkImageMemoryBarrier, 9>`. -/
def MAX_BARRIERS : Nat := 9

/-- The `barrier_count` computation of `Scheduler::EndRenderPass`'s recorded
closure: `num_images` clamped to `MAX_BARRIERS` ("Clamp for safety"). -/
def barrierCount (num_images : Nat) : Nat :=
  if num_images > MAX_BARRIERS then MAX_BARRIERS else num_images

/-- The indices `i` at which the closure of `Scheduler::EndRenderPass` writes
`barriers[i]` (the loop `for (u32 i = 0; i < barrier_count; ++i)`). -/
def endRenderPassBarrierWrites (num_images : Nat) : List Nat :=
  List.range (barrierCount num_images)

/-- The sequential model of `Scheduler`: the master semaphore, the chunk the
producer is currently recording into, the state cache, the cached attachment
count for `EndRenderPass`, the FIFO queue of dispatched chunks awaiting the
worker thread, and the trace of commands the worker has executed so far. -/
structure Scheduler where
  master_semaphore : MasterSemaphore
  chunk : CommandChunk
  state : SchedulerState
  num_renderpass_images : Nat
  work_queue : List CommandChunk
  executed : List RecordedCommand
deriving DecidableEq, Repr

/-- A scheduler as freshly constructed: empty initial chunk, empty queue,
default-initialised state cache, nothing executed. -/
def Scheduler.initial : Scheduler :=
  { master_semaphore := .initial
    chunk := {}
    state := {}
    num_renderpass_images := 0
    work_queue := []
    executed := [] }

/-- `Scheduler::Record`: appends a closure to the current chunk (placement-new
at the arena's `last` pointer). -/
def Scheduler.Record (s : Scheduler) (c : RecordedCommand) : Scheduler :=
  { s with chunk := { s.chunk with commands := s.chunk.commands ++ [c] } }

/-- `Scheduler::DispatchWork`: if the current chunk has commands, move it to
the worker queue and acquire a fresh chunk; otherwise do nothing. -/
def Scheduler.DispatchWork (s : Scheduler) : Scheduler :=
  if s.chunk.Empty then s
  else { s with work_queue := s.work_queue ++ [s.chunk], chunk := {} }

/-- `Scheduler::EndRenderPass`: if no render pass is active
(`!state.renderpass`) do nothing; otherwise record the end-render-pass +
barrier-batch closure (with the clamped `barrier_count`) and clear the cached
render pass state. -/
def Scheduler.EndRenderPass (s : Scheduler) : Scheduler :=
  if s.state.renderpass = 0 then s
  else
    let s1 := s.Record (.endRenderPass (barrierCount s.num_renderpass_images))
    { s1 with
      state := { s1.state with renderpass := 0, framebuffer := 0 }
      num_renderpass_images := 0 }

/-- The early-exit test of `Scheduler::RequestRenderpass`: the requested
render pass, framebuffer handle and render area all match the cached state. -/
def Scheduler.renderpassMatches (s : Scheduler) (fb : Framebuffer) : Bool :=
  s.state.renderpass == fb.renderPass && s.state.framebuffer == fb.handle &&
    s.state.render_area.width == fb.renderArea.width &&
    s.state.render_area.height == fb.renderArea.height

/-- `Scheduler::RequestRenderpass`: return early when the cached state already
matches; otherwise end the current render pass, update the cached state,
record the begin-render-pass command and remember the attachment count. -/
def Scheduler.RequestRenderpass (s : Scheduler) (fb : Framebuffer) : Scheduler :=
  if s.renderpassMatches fb then s
  else
    let s1 := s.EndRenderPass
    let s2 := { s1 with
      state := { s1.state with
        renderpass := fb.renderPass
        framebuffer := fb.handle
        render_area := fb.renderArea } }
    let s3 := s2.Record (.beginRenderPass fb.renderPass fb.handle fb.renderArea)
    { s3 with num_renderpass_images := fb.numImages }

/-- `Scheduler::RequestOutsideRenderPassOperationContext`. -/
def Scheduler.RequestOutsideRenderPassOperationContext (s : Scheduler) : Scheduler :=
  s.EndRenderPass

/-- `Scheduler::UpdateGraphicsPipeline`: change-detected setter; returns
whether the cached pipeline actually changed, together with the new state. -/
def Scheduler.UpdateGraphicsPipeline (s : Scheduler) (pipeline : Nat) :
    Bool × Scheduler :=
  if s.state.graphics_pipeline = pipeline then (false, s)
  else (true, { s with state := { s.state with graphics_pipeline := pipeline } })

/-- `Scheduler::UpdateRescaling`: change-detected setter for the rescaling
flag. -/
def Scheduler.UpdateRescaling (s : Scheduler) (is_rescaling : Bool) :
    Bool × Scheduler :=
  if s.state.rescaling_defined && is_rescaling == s.state.is_rescaling then
    (false, s)
  else
    (true, { s with state := { s.state with
      rescaling_defined := true
      is_rescaling := is_rescaling } })

/-- `Scheduler::InvalidateState`: resets the cached pipeline, rescaling and
render pass state before a submission. -/
def Scheduler.InvalidateState (s : Scheduler) : Scheduler :=
  { s with state := { s.state with
    graphics_pipeline := 0
    rescaling_defined := false
    renderpass := 0
    framebuffer := 0 } }

/-- `Scheduler::EndPendingOperations`: notify the query cache (no observable
state here) and end the current render pass. -/
def Scheduler.EndPendingOperations (s : Scheduler) : Scheduler :=
  s.EndRenderPass

/-- `Scheduler::SubmitExecution`: end pending operations, invalidate the state
cache, obtain the signal value from the master semaphore's `NextTick`, record
the submit closure, mark the chunk as containing a submission, dispatch it to
the worker, and return the tick. -/
def Scheduler.SubmitExecution (s : Scheduler) : Nat × Scheduler :=
  let s1 := s.EndPendingOperations
  let s2 := s1.InvalidateState
  let next := s2.master_semaphore.NextTick
  let signal_value := next.1
  let s3 := { s2 with master_semaphore := next.2 }
  let s4 := s3.Record (.submit signal_value)
  let s5 := { s4 with chunk := { s4.chunk with submit := true } }
  (signal_value, s5.DispatchWork)

/-- `Scheduler::AllocateNewContext`: re-enables query streams; no observable
scheduler state changes in this model. -/
def Scheduler.AllocateNewContext (s : Scheduler) : Scheduler :=
  s

/-- `Scheduler::IsTickCompleted`: delegates to `MasterSemaphore::IsSignaled`. -/
def Scheduler.IsTickCompleted (s : Scheduler) (tick : Nat) : Bool :=
  s.master_semaphore.IsSignaled tick

/-- `Scheduler::GetCompletedTick`: delegates to `MasterSemaphore::GetValue`. -/
def Scheduler.GetCompletedTick (s : Scheduler) : Nat :=
  s.master_semaphore.GetValue

/-- The worker thread draining its FIFO queue: each chunk's commands are
executed via `ExecuteAll` in queue order and appended to the execution
trace; drained chunks go back to the reserve pool (not tracked). -/
def Scheduler.RunWorker (s : Scheduler) : Scheduler :=
  { s with
    executed := s.executed ++ (s.work_queue.map (fun c => c.ExecuteAll.1)).flatten
    work_queue := [] }

/-- `Scheduler::WaitUntilTick`: blocks until the GPU timeline reaches `tick`.
By the time the wait returns, the worker has drained every chunk dispatched
before the wait (the submit closure signalling `tick` has executed) and the
host GPU timeline has been signalled up to at least `tick`. -/
def Scheduler.WaitUntilTick (s : Scheduler) (tick : Nat) : Scheduler :=
  let s1 := s.RunWorker
  { s1 with master_semaphore := s1.master_semaphore.SignalTimeline tick }

/-- `Scheduler::Flush`: submit the current chunk asynchronously and return the
tick that will mark its completion; does not wait. -/
def Scheduler.Flush (s : Scheduler) : Nat × Scheduler :=
  let r := s.SubmitExecution
  (r.1, r.2.AllocateNewContext)

/-- `Scheduler::Finish`: submit, then wait specifically for this submission's
tick to complete before returning. -/
def Scheduler.Finish (s : Scheduler) : Scheduler :=
  let r := s.SubmitExecution
  (r.2.WaitUntilTick r.1).AllocateNewContext

/-- Records a list of user closures (by id) one after another, as the render
thread does between submissions. -/
def Scheduler.RecordClosures (s : Scheduler) : List Nat → Scheduler
  | [] => s
  | i :: rest => (s.Record (.closure i)).RecordClosures rest

/-- Runs `Flush` `n` times in sequence, collecting the returned ticks. -/
def Scheduler.FlushN : Nat → Scheduler → List Nat × Scheduler
  | 0, s => ([], s)
  | n + 1, s =>
    let r := s.Flush
    let rest := FlushN n r.2
    (r.1 :: rest.1, rest.2)

/-- `InnerFence`: the `is_stubbed` flag inherited from `FenceBase` plus the
tick captured by `Queue()` (`wait_tick`, initialised to 0 = never queued). -/
structure InnerFence where
  is_stubbed : Bool
  wait_tick : Nat
deriving DecidableEq, Repr

/-- `FenceBase::IsStubbed`. -/
def InnerFence.IsStubbed (f : InnerFence) : Bool :=
  f.is_stubbed

/-- The observable behaviour of a call to `InnerFence::Wait`: either the call
returns normally, having performed the listed scheduler tick waits
(`Scheduler::WaitUntilTick`), or it aborts with an unrecoverable assertion. -/
inductive WaitBehavior where
  | returned (scheduler_waits : List Nat)
  | aborted
deriving DecidableEq, Repr

/-- `InnerFence::IsSignaled`: stubbed fences are always signaled; a fence
never queued (`wait_tick == 0`) reports unsignaled; otherwise delegate to
`Scheduler::IsTickCompleted`. -/
def InnerFence.IsSignaled (f : InnerFence) (s : Scheduler) : Bool :=
  if f.IsStubbed then true
  else if f.wait_tick = 0 then false
  else s.IsTickCompleted f.wait_tick

/-- `InnerFence::Wait`: stubbed fences return at once; a fence never queued
(`wait_tick == 0`) returns at once without waiting (the warning log is
commented out in the source); otherwise wait for the captured tick. -/
def InnerFence.Wait (f : InnerFence) : WaitBehavior :=
  if f.IsStubbed then .returned []
  else if f.wait_tick = 0 then .returned []
  else .returned [f.wait_tick]

/-- `FenceManager::CreateFence`. -/
def FenceManager.CreateFence (is_stubbed : Bool) : InnerFence :=
  { is_stubbed := is_stubbed, wait_tick := 0 }

/-- `FenceManager::IsFenceSignaled`: `return fence ? fence->IsSignaled() :
true` — a null (`none`) fence handle is reported as already signaled, a
non-null one delegates to `InnerFence::IsSignaled`. -/
def FenceManager.IsFenceSignaled (fence : Option InnerFence) (s : Scheduler) :
    Bool :=
  match fence with
  | none => true
  | some f => f.IsSignaled s

/-- `FenceManager::WaitFence`: delegates to `InnerFence::Wait` for a non-null
fence; a null fence is a no-op. -/
def FenceManager.WaitFence (fence : Option InnerFence) : WaitBehavior :=
  match fence with
  | none => .returned []
  | some f => f.Wait

/-- The `VkResult` outcomes relevant to `PresentManager::CopyToSwapchain`'s
exception handler, as raised (via `vk::Exception`) by one attempt of
`CopyToSwapchainImpl`. -/
inductive VkPresentResult where
  | success
  | surfaceLost
  | outOfDate
  | suboptimal
  | deviceLost
  | errorOther (code : Nat)
deriving DecidableEq, Repr

/-- The externally visible actions of `PresentManager::CopyToSwapchain`: one
attempt of `CopyToSwapchainImpl`, one `CreateSurface` call, and one
`RecreateSwapchain` call. -/
inductive PresentAction where
  | copyToSwapchainImpl
  | recreateSurface
  | recreateSwapchain
deriving DecidableEq, Repr

/-- How a `CopyToSwapchain` call ends: a normal return, an exception escaping
to the caller, or the supplied attempt script running out (the loop would
keep retrying beyond the scripted attempts). -/
inductive CopyOutcome where
  | returned
  | threw (r : VkPresentResult)
  | outOfScript
deriving DecidableEq, Repr

/-- `PresentManager::CopyToSwapchain`'s retry loop.  `script` gives the result
of each successive `CopyToSwapchainImpl` attempt; `requires_recreation` is the
loop's local flag.  Each iteration first recreates the surface and swapchain
when the flag is set, then attempts the copy/present; `VK_SUCCESS` returns,
`VK_ERROR_SURFACE_LOST_KHR` sets the flag and loops,
`VK_ERROR_OUT_OF_DATE_KHR`/`VK_SUBOPTIMAL_KHR` call `RecreateSwapchain` and
loop, `VK_ERROR_DEVICE_LOST` and any other error are rethrown. -/
def CopyToSwapchainLoop :
    List VkPresentResult → Bool → List PresentAction × CopyOutcome
  | [], _ => ([], .outOfScript)
  | r :: rest, requires_recreation =>
    let pre : List PresentAction :=
      if requires_recreation then [.recreateSurface, .recreateSwapchain] else []
    match r with
    | .success => (pre ++ [.copyToSwapchainImpl], .returned)
    | .surfaceLost =>
      let k := CopyToSwapchainLoop rest true
      (pre ++ [.copyToSwapchainImpl] ++ k.1, k.2)
    | .outOfDate =>
      let k := CopyToSwapchainLoop rest false
      (pre ++ [.copyToSwapchainImpl, .recreateSwapchain] ++ k.1, k.2)
    | .suboptimal =>
      let k := CopyToSwapchainLoop rest false
      (pre ++ [.copyToSwapchainImpl, .recreateSwapchain] ++ k.1, k.2)
    | .deviceLost => (pre ++ [.copyToSwapchainImpl], .threw .deviceLost)
    | .errorOther c => (pre ++ [.copyToSwapchainImpl], .threw (.errorOther c))

/-- `PresentManager::CopyToSwapchain`: enters the retry loop with
`requires_recreation = false`. -/
def CopyToSwapchain (script : List VkPresentResult) :
    List PresentAction × CopyOutcome :=
  CopyToSwapchainLoop script false

/-- `VK_MEMORY_PROPERTY_DEVICE_LOCAL_BIT`. -/
def VK_MEMORY_PROPERTY_DEVICE_LOCAL_BIT : Nat := 1

/-- `VK_MEMORY_PROPERTY_HOST_VISIBLE_BIT`. -/
def VK_MEMORY_PROPERTY_HOST_VISIBLE_BIT : Nat := 2

/-- `VkMemoryType`: property flag bits plus the index of its heap. -/
structure VkMemoryType where
  propertyFlags : Nat
  heapIndex : Nat
deriving DecidableEq, Repr

/-- `VkMemoryHeap` (only the size is read here). -/
structure VkMemoryHeap where
  size : Nat
deriving DecidableEq, Repr

/-- `VkPhysicalDeviceMemoryProperties`: the memory types and heaps. -/
structure MemoryProperties where
  memoryTypes : List VkMemoryType
  memoryHeaps : List VkMemoryHeap
deriving DecidableEq, Repr

/-- What `MemoryAllocator`'s constructor reads from the `Device`: its physical
device memory properties and `HasDebuggingToolAttached()`. -/
structure DeviceModel where
  memory_properties : MemoryProperties
  has_debugging_tool_attached : Bool
deriving DecidableEq, Repr

/-- `MemoryUsage`: the abstract allocation intents. -/
inductive MemoryUsage where
  | DeviceLocal
  | Upload
  | Download
  | Stream
deriving DecidableEq, Repr

/-- The filter inside `MemoryAllocator::ForEachDeviceLocalHostVisibleHeap`:
the memory type has both `DEVICE_LOCAL` and `HOST_VISIBLE` property bits. -/
def isDeviceLocalHostVisible (t : VkMemoryType) : Bool :=
  (t.propertyFlags &&& VK_MEMORY_PROPERTY_DEVICE_LOCAL_BIT) ≠ 0 &&
    (t.propertyFlags &&& VK_MEMORY_PROPERTY_HOST_VISIBLE_BIT) ≠ 0

/-- `MemoryAllocator::ForEachDeviceLocalHostVisibleHeap`: for each memory type
index `i` below `memoryTypeCount`, if the type is device-local and
host-visible, visit `(i, memoryHeaps[memoryTypes[i].heapIndex])`. -/
def ForEachDeviceLocalHostVisibleHeap (props : MemoryProperties) :
    List (Nat × VkMemoryHeap) :=
  (List.range props.memoryTypes.length).filterMap (fun i =>
    let t := props.memoryTypes.getD i ⟨0, 0⟩
    if isDeviceLocalHostVisible t then
      some (i, props.memoryHeaps.getD t.heapIndex ⟨0⟩)
    else none)

/-- `256_MiB` from `Common::Literals`. -/
def MiB256 : Nat := 256 * 1024 * 1024

/-- The `MemoryAllocator` state: the bitmask of memory type indices excluded
from the `Stream` path (`disallowed_memory_types_for_stream`). -/
structure MemoryAllocator where
  disallowed_memory_types_for_stream : Nat
deriving DecidableEq, Repr

/-- `MemoryAllocator`'s constructor: when a GPU debugging tool is attached,
every device-local-and-host-visible memory type whose heap is ≤ 256 MiB has
its bit OR-ed into `disallowed_memory_types_for_stream`; otherwise the mask
stays 0. -/
def MemoryAllocator.construct (dev : DeviceModel) : MemoryAllocator :=
  { disallowed_memory_types_for_stream :=
      if dev.has_debugging_tool_attached then
        (ForEachDeviceLocalHostVisibleHeap dev.memory_properties).foldl
          (fun acc ih => if ih.2.size ≤ MiB256 then acc ||| (1 <<< ih.1) else acc) 0
      else 0 }

/-- The 32-bit all-ones mask (the width of `memoryTypeBits : u32`). -/
def U32_MASK : Nat := 2 ^ 32 - 1

/-- The `memoryTypeBits` field `MemoryAllocator::CreateBuffer` passes to
`vmaCreateBuffer`: `usage == Stream ? ~disallowed_memory_types_for_stream :
0u` (`~` on `u32` is modelled as XOR against the 32-bit all-ones mask; per
the source comment, `0` means "VMA considers all types compatible"). -/
def MemoryAllocator.CreateBufferMemoryTypeBits (a : MemoryAllocator)
    (usage : MemoryUsage) : Nat :=
  if usage = MemoryUsage.Stream then
    U32_MASK ^^^ a.disallowed_memory_types_for_stream
  else 0

/-- Recognises the begin-render-pass command recorded by
`Scheduler::RequestRenderpass`. -/
def isBeginRenderPass : RecordedCommand → Bool
  | .beginRenderPass _ _ _ => true
  | _ => false

/-- Projects a user closure's id out of an executed command (internal
scheduler commands yield `none`). -/
def closureId : RecordedCommand → Option Nat
  | .closure i => some i
  | _ => none

/-! ## Theorems -/

/-- C10: `FenceManager::IsFenceSignaled` reports a null fence handle as
already signaled, and for a non-null fence returns exactly the fence's own
`IsSignaled()` result. -/
theorem isFenceSignaled_null_true_nonnull_delegates :
    (∀ s : Scheduler, FenceManager.IsFenceSignaled none s = true) ∧
    (∀ (f : InnerFence) (s : Scheduler),
      FenceManager.IsFenceSignaled (some f) s = f.IsSignaled s) :=
  ⟨fun _ => rfl, fun _ _ => rfl⟩

/-- C4: a fence constructed with `is_stubbed = true` reports `IsSignaled() =
true` at every point of its lifetime (any `wait_tick`, so before or after
`Queue`, against any scheduler state), and `Wait()` returns immediately
without performing any tick wait on the scheduler. -/
theorem stubbed_fence_signaled_and_wait_immediate (f : InnerFence)
    (s : Scheduler) (h : f.is_stubbed = true) :
    f.IsSignaled s = true ∧ f.Wait = WaitBehavior.returned [] := by
  constructor <;> simp [InnerFence.IsSignaled, InnerFence.Wait,
    InnerFence.IsStubbed, h]

/-- Witness for C4 at a concrete queued stubbed fence and scheduler. -/
theorem stubbed_fence_signaled_and_wait_immediate_witness :
    InnerFence.IsSignaled ⟨true, 5⟩ Scheduler.initial = true ∧
    InnerFence.Wait ⟨true, 5⟩ = WaitBehavior.returned [] :=
  stubbed_fence_signaled_and_wait_immediate ⟨true, 5⟩ Scheduler.initial rfl

/-- C5 counterexample: calling `Wait()` on the non-stubbed fence with
`wait_tick = 0` (never queued) returns normally with no tick wait — it is
not an unrecoverable assertion, contradicting the claim that this condition
is "treated as an unrecoverable assertion ... not silently ignored". -/
theorem wait_never_queued_cex :
    InnerFence.Wait ⟨false, 0⟩ = WaitBehavior.returned [] ∧
    InnerFence.Wait ⟨false, 0⟩ ≠ WaitBehavior.aborted := by
  decide

/-- C5 (amended): calling `Wait()` on a non-stubbed fence that was never
queued (`wait_tick` still zero) returns immediately without performing any
tick wait on the scheduler; the condition is silently ignored (the source
even comments out the warning log), not treated as an assertion. -/
theorem wait_never_queued_returns_silently (f : InnerFence)
    (h1 : f.is_stubbed = false) (h2 : f.wait_tick = 0) :
    f.Wait = WaitBehavior.returned [] ∧ f.Wait ≠ WaitBehavior.aborted := by
  constructor <;> simp [InnerFence.Wait, InnerFence.IsStubbed, h1, h2]

/-- Witness for the amended C5 at the concrete never-queued fence. -/
theorem wait_never_queued_returns_silently_witness :
    InnerFence.Wait ⟨false, 0⟩ = WaitBehavior.returned [] ∧
    InnerFence.Wait ⟨false, 0⟩ ≠ WaitBehavior.aborted :=
  wait_never_queued_returns_silently ⟨false, 0⟩ rfl rfl

/-- C8: the barrier batch of `Scheduler::EndRenderPass` writes `barrier_count
= min(num_images, 9)` entries: the count is clamped to the fixed array bound
`MAX_BARRIERS = 9` rather than the array being resized, and every index the
barrier loop writes is in bounds of the 9-entry on-stack array. -/
theorem endRenderPass_barriers_clamped (num_images : Nat) :
    barrierCount num_images = min num_images MAX_BARRIERS ∧
    barrierCount num_images ≤ MAX_BARRIERS ∧
    ∀ i ∈ endRenderPassBarrierWrites num_images, i < MAX_BARRIERS := by
  refine ⟨?_, ?_, ?_⟩
  · unfold barrierCount
    split <;> omega
  · unfold barrierCount
    split <;> omega
  · intro i hi
    rw [endRenderPassBarrierWrites, List.mem_range] at hi
    have hb : barrierCount num_images ≤ MAX_BARRIERS := by
      unfold barrierCount
      split <;> omega
    omega

/-- Helper: the retry loop of `PresentManager::CopyToSwapchain` only lets an
exception escape for device loss or an unexpected error code — never for
surface-lost, out-of-date or suboptimal results, which it handles in place. -/
theorem copyLoop_throws_only_fatal (script : List VkPresentResult)
    (flag : Bool) (r : VkPresentResult)
    (h : (CopyToSwapchainLoop script flag).2 = .threw r) :
    r = .deviceLost ∨ ∃ c, r = .errorOther c := by
  induction script generalizing flag with
  | nil => simp [CopyToSwapchainLoop] at h
  | cons a rest ih =>
    cases a <;> simp [CopyToSwapchainLoop] at h
    · exact ih true h
    · exact ih false h
    · exact ih false h
    · exact Or.inl h.symm
    · exact Or.inr ⟨_, h.symm⟩

/-- C3: when `CopyToSwapchainImpl` raises out-of-date or suboptimal,
`CopyToSwapchain` calls `RecreateSwapchain` exactly once and the retried
present succeeds; when it raises surface-lost, the surface is recreated and
the swapchain recreated before the successful retry; and in no run does a
surface-lost / out-of-date / suboptimal exception escape `CopyToSwapchain`
(only device loss or an unexpected error is rethrown). -/
theorem copyToSwapchain_recovers_in_place (rest1 rest2 rest3 : List VkPresentResult)
    (script : List VkPresentResult) (flag : Bool) (r : VkPresentResult)
    (h : (CopyToSwapchainLoop script flag).2 = .threw r) :
    CopyToSwapchain (.outOfDate :: .success :: rest1) =
      ([.copyToSwapchainImpl, .recreateSwapchain, .copyToSwapchainImpl],
        .returned) ∧
    CopyToSwapchain (.suboptimal :: .success :: rest2) =
      ([.copyToSwapchainImpl, .recreateSwapchain, .copyToSwapchainImpl],
        .returned) ∧
    CopyToSwapchain (.surfaceLost :: .success :: rest3) =
      ([.copyToSwapchainImpl, .recreateSurface, .recreateSwapchain,
        .copyToSwapchainImpl], .returned) ∧
    (r = .deviceLost ∨ ∃ c, r = .errorOther c) :=
  ⟨rfl, rfl, rfl, copyLoop_throws_only_fatal script flag r h⟩

/-- Witness for C3: the synthetic scripts with one transient failure then
success, and a device-lost script for the escape clause. -/
theorem copyToSwapchain_recovers_in_place_witness :
    CopyToSwapchain [.outOfDate, .success] =
      ([.copyToSwapchainImpl, .recreateSwapchain, .copyToSwapchainImpl],
        .returned) ∧
    CopyToSwapchain [.suboptimal, .success] =
      ([.copyToSwapchainImpl, .recreateSwapchain, .copyToSwapchainImpl],
        .returned) ∧
    CopyToSwapchain [.surfaceLost, .success] =
      ([.copyToSwapchainImpl, .recreateSurface, .recreateSwapchain,
        .copyToSwapchainImpl], .returned) ∧
    (VkPresentResult.deviceLost = .deviceLost ∨
      ∃ c, VkPresentResult.deviceLost = .errorOther c) :=
  copyToSwapchain_recovers_in_place [] [] [] [.deviceLost] false
    .deviceLost rfl

/-- C6: `UpdateGraphicsPipeline(P)` called twice in immediate succession
returns `true` on the first call (a transition from a differently-cached
pipeline occurred) and `false` on the second (no transition). -/
theorem updateGraphicsPipeline_true_then_false (s : Scheduler) (p : Nat)
    (h : s.state.graphics_pipeline ≠ p) :
    (s.UpdateGraphicsPipeline p).1 = true ∧
    ((s.UpdateGraphicsPipeline p).2.UpdateGraphicsPipeline p).1 = false := by
  constructor <;> simp [Scheduler.UpdateGraphicsPipeline, h]

/-- Witness for C6: a fresh scheduler (cached pipeline null) and pipeline 5. -/
theorem updateGraphicsPipeline_true_then_false_witness :
    (Scheduler.initial.UpdateGraphicsPipeline 5).1 = true ∧
    ((Scheduler.initial.UpdateGraphicsPipeline 5).2.UpdateGraphicsPipeline
      5).1 = false :=
  updateGraphicsPipeline_true_then_false Scheduler.initial 5 (by decide)

/-- Helper: `Scheduler::EndRenderPass` never records a begin-render-pass
command (it records at most the end+barriers closure). -/
theorem endRenderPass_countBegins (s : Scheduler) :
    (s.EndRenderPass).chunk.commands.countP isBeginRenderPass =
      s.chunk.commands.countP isBeginRenderPass := by
  unfold Scheduler.EndRenderPass
  split
  · rfl
  · simp [Scheduler.Record, List.countP_append, isBeginRenderPass]

/-- Helper: after a non-matching `RequestRenderpass`, the cached state
matches the requested framebuffer. -/
theorem requestRenderpass_sets_state (s : Scheduler) (fb : Framebuffer)
    (h : s.renderpassMatches fb = false) :
    (s.RequestRenderpass fb).renderpassMatches fb = true := by
  unfold Scheduler.RequestRenderpass
  rw [h]
  simp [Scheduler.renderpassMatches, Scheduler.Record]

/-- Helper: `RequestRenderpass` on an already matching cached state is a
no-op (the early return). -/
theorem requestRenderpass_matching_noop (s : Scheduler) (fb : Framebuffer)
    (h : s.renderpassMatches fb = true) : s.RequestRenderpass fb = s := by
  simp [Scheduler.RequestRenderpass, h]

/-- C7: calling `RequestRenderpass` twice in a row with the same render pass,
framebuffer handle and render area records exactly one begin-render-pass
command — the first call records one, and the second call detects the
matching cached state and records nothing (it is the identity). -/
theorem requestRenderpass_twice_single_begin (s : Scheduler)
    (fb : Framebuffer) (h : s.renderpassMatches fb = false) :
    ((s.RequestRenderpass fb).chunk.commands.countP isBeginRenderPass =
      s.chunk.commands.countP isBeginRenderPass + 1) ∧
    (s.RequestRenderpass fb).RequestRenderpass fb = s.RequestRenderpass fb := by
  constructor
  · simp [Scheduler.RequestRenderpass, h, Scheduler.Record,
      List.countP_append, endRenderPass_countBegins, isBeginRenderPass]
  · exact requestRenderpass_matching_noop _ fb
      (requestRenderpass_sets_state s fb h)

/-- Witness for C7: a fresh scheduler and a concrete framebuffer. -/
theorem requestRenderpass_twice_single_begin_witness :
    ((Scheduler.initial.RequestRenderpass
        ⟨1, 2, ⟨640, 480⟩, 3⟩).chunk.commands.countP isBeginRenderPass =
      Scheduler.initial.chunk.commands.countP isBeginRenderPass + 1) ∧
    (Scheduler.initial.RequestRenderpass
        ⟨1, 2, ⟨640, 480⟩, 3⟩).RequestRenderpass ⟨1, 2, ⟨640, 480⟩, 3⟩ =
      Scheduler.initial.RequestRenderpass ⟨1, 2, ⟨640, 480⟩, 3⟩ :=
  requestRenderpass_twice_single_begin Scheduler.initial
    ⟨1, 2, ⟨640, 480⟩, 3⟩ (by decide)

/-- Helper: recording a list of closures only appends them, in order, to the
current chunk's command list. -/
theorem recordClosures_spec (ids : List Nat) (s : Scheduler) :
    s.RecordClosures ids =
      { s with chunk := { s.chunk with
          commands := s.chunk.commands ++ ids.map RecordedCommand.closure } } := by
  induction ids generalizing s with
  | nil => simp [Scheduler.RecordClosures]
  | cons i tl ih =>
    rw [Scheduler.RecordClosures, ih]
    simp [Scheduler.Record]

/-- Helper: user closures survive `filterMap closureId` unchanged. -/
theorem filterMap_closureId_map (ids : List Nat) :
    (ids.map RecordedCommand.closure).filterMap closureId = ids := by
  induction ids with
  | nil => rfl
  | cons i tl ih => simp [closureId, ih]

/-- C2: after recording M closures into a clean scheduler, `Finish` executes
exactly those M closures, in the order they were recorded (followed only by
the internal submit closure), and they have all executed by the time
`Finish` returns (they are in the returned state's execution trace). -/
theorem finish_executes_closures_in_order (s : Scheduler) (ids : List Nat)
    (hchunk : s.chunk.commands = []) (hqueue : s.work_queue = [])
    (hexec : s.executed = []) (hrp : s.state.renderpass = 0) :
    ((s.RecordClosures ids).Finish).executed =
      ids.map RecordedCommand.closure ++
        [RecordedCommand.submit s.master_semaphore.current_tick] ∧
    ((s.RecordClosures ids).Finish).executed.filterMap closureId = ids := by
  have h1 : ((s.RecordClosures ids).Finish).executed =
      ids.map RecordedCommand.closure ++
        [RecordedCommand.submit s.master_semaphore.current_tick] := by
    rw [recordClosures_spec]
    simp [Scheduler.Finish, Scheduler.SubmitExecution,
      Scheduler.EndPendingOperations, Scheduler.EndRenderPass,
      Scheduler.InvalidateState, MasterSemaphore.NextTick, Scheduler.Record,
      Scheduler.DispatchWork, CommandChunk.Empty, Scheduler.WaitUntilTick,
      Scheduler.RunWorker, CommandChunk.ExecuteAll,
      Scheduler.AllocateNewContext, hchunk, hqueue, hexec, hrp]
  refine ⟨h1, ?_⟩
  rw [h1, List.filterMap_append, filterMap_closureId_map]
  simp [closureId]

/-- Witness for C2: three closures recorded into a fresh scheduler. -/
theorem finish_executes_closures_in_order_witness :
    ((Scheduler.initial.RecordClosures [10, 20, 30]).Finish).executed =
      [10, 20, 30].map RecordedCommand.closure ++
        [RecordedCommand.submit
          Scheduler.initial.master_semaphore.current_tick] ∧
    ((Scheduler.initial.RecordClosures
        [10, 20, 30]).Finish).executed.filterMap closureId = [10, 20, 30] :=
  finish_executes_closures_in_order Scheduler.initial [10, 20, 30]
    rfl rfl rfl rfl

/-- Helper: `EndRenderPass` does not touch the master semaphore. -/
theorem endRenderPass_sem (s : Scheduler) :
    (s.EndRenderPass).master_semaphore = s.master_semaphore := by
  unfold Scheduler.EndRenderPass
  split <;> rfl

/-- Helper: `DispatchWork` does not touch the master semaphore. -/
theorem dispatchWork_sem (s : Scheduler) :
    (s.DispatchWork).master_semaphore = s.master_semaphore := by
  unfold Scheduler.DispatchWork
  split <;> rfl

/-- Helper: `Flush` returns the tick issued by `NextTick`, i.e. the master
semaphore's pending tick at the time of the call. -/
theorem flush_val (s : Scheduler) :
    (s.Flush).1 = s.master_semaphore.current_tick := by
  simp [Scheduler.Flush, Scheduler.SubmitExecution,
    Scheduler.EndPendingOperations, Scheduler.InvalidateState,
    MasterSemaphore.NextTick, endRenderPass_sem]

/-- Helper: after `Flush`, the next tick to issue has advanced by one and the
GPU timeline value is untouched (the CPU side never signals it). -/
theorem flush_sem (s : Scheduler) :
    ((s.Flush).2).master_semaphore =
      ⟨s.master_semaphore.current_tick + 1, s.master_semaphore.gpu_tick⟩ := by
  simp [Scheduler.Flush, Scheduler.AllocateNewContext,
    Scheduler.SubmitExecution, Scheduler.EndPendingOperations,
    Scheduler.InvalidateState, MasterSemaphore.NextTick, Scheduler.Record,
    dispatchWork_sem, endRenderPass_sem]

/-- Helper: a run of `n` flushes leaves the GPU timeline value unchanged. -/
theorem flushN_gpu (n : Nat) (s : Scheduler) :
    ((Scheduler.FlushN n s).2).master_semaphore.gpu_tick =
      s.master_semaphore.gpu_tick := by
  induction n generalizing s with
  | zero => rfl
  | succ n ih => rw [Scheduler.FlushN]; rw [ih, flush_sem]

/-- Helper: every tick a run of flushes returns is at least the pending tick
at the start of the run. -/
theorem flushN_mem_ge (n : Nat) (s : Scheduler) :
    ∀ t ∈ (Scheduler.FlushN n s).1, s.master_semaphore.current_tick ≤ t := by
  induction n generalizing s with
  | zero => intro t ht; simp [Scheduler.FlushN] at ht
  | succ n ih =>
    intro t ht
    rw [Scheduler.FlushN] at ht
    rcases List.mem_cons.mp ht with h | h
    · rw [h, flush_val]
    · have h2 := ih (s.Flush).2 t h
      rw [flush_sem] at h2
      have h3 : s.master_semaphore.current_tick + 1 ≤ t := h2
      omega

/-- C1: a sequence of `n` `Flush` calls (each routed through
`SubmitExecution`, whose signal value comes from the master semaphore's
`NextTick`) returns strictly increasing ticks; each returned tick is not yet
completed at the end of the run (before the GPU signals it), and is completed
once the GPU timeline has been signalled up to it (here via the wait that
signals the timeline). -/
theorem flush_ticks_strictly_increasing (s : Scheduler) (n : Nat)
    (hwf : s.master_semaphore.gpu_tick < s.master_semaphore.current_tick) :
    ((Scheduler.FlushN n s).1).Pairwise (· < ·) ∧
    (∀ t ∈ (Scheduler.FlushN n s).1,
      ((Scheduler.FlushN n s).2).IsTickCompleted t = false) ∧
    (∀ t ∈ (Scheduler.FlushN n s).1,
      (((Scheduler.FlushN n s).2).WaitUntilTick t).IsTickCompleted t
        = true) := by
  refine ⟨?_, ?_, ?_⟩
  · clear hwf
    induction n generalizing s with
    | zero => simp [Scheduler.FlushN]
    | succ n ih =>
      rw [Scheduler.FlushN]
      rw [List.pairwise_cons]
      constructor
      · intro t ht
        have h2 := flushN_mem_ge n (s.Flush).2 t ht
        rw [flush_sem] at h2
        have h3 : s.master_semaphore.current_tick + 1 ≤ t := h2
        rw [flush_val]
        omega
      · exact ih (s.Flush).2
  · intro t ht
    have hge := flushN_mem_ge n s t ht
    have hgpu := flushN_gpu n s
    simp [Scheduler.IsTickCompleted, MasterSemaphore.IsSignaled, hgpu]
    omega
  · intro t ht
    simp [Scheduler.WaitUntilTick, Scheduler.IsTickCompleted,
      MasterSemaphore.IsSignaled, MasterSemaphore.SignalTimeline,
      Scheduler.RunWorker]

/-- Witness for C1: three flushes from a fresh scheduler return ticks 1, 2, 3. -/
theorem flush_ticks_strictly_increasing_witness :
    ((Scheduler.FlushN 3 Scheduler.initial).1).Pairwise (· < ·) ∧
    (∀ t ∈ (Scheduler.FlushN 3 Scheduler.initial).1,
      ((Scheduler.FlushN 3 Scheduler.initial).2).IsTickCompleted t = false) ∧
    (∀ t ∈ (Scheduler.FlushN 3 Scheduler.initial).1,
      (((Scheduler.FlushN 3 Scheduler.initial).2).WaitUntilTick
        t).IsTickCompleted t = true) :=
  flush_ticks_strictly_increasing Scheduler.initial 3 (by decide)

/-- Helper: a bit of the fold accumulating
`disallowed_memory_types_for_stream` is set exactly when it was set in the
accumulator or some visited (type index, heap) pair has that index and a
small heap. -/
theorem testBit_disallowed_foldl (l : List (Nat × VkMemoryHeap))
    (acc j : Nat) :
    ((l.foldl
        (fun acc ih => if ih.2.size ≤ MiB256 then acc ||| (1 <<< ih.1)
          else acc) acc).testBit j = true) ↔
      (acc.testBit j = true ∨ ∃ p ∈ l, p.1 = j ∧ p.2.size ≤ MiB256) := by
  induction l generalizing acc with
  | nil => simp
  | cons a tl ih =>
    rw [List.foldl_cons, ih]
    by_cases hsz : a.2.size ≤ MiB256
    · rw [if_pos hsz, Nat.one_shiftLeft, Nat.testBit_lor,
        Nat.testBit_two_pow]
      simp only [List.mem_cons, Bool.or_eq_true, decide_eq_true_eq]
      constructor
      · rintro (⟨h | h⟩ | ⟨p, hp, hj, hs⟩)
        · exact Or.inl h
        · exact Or.inr ⟨a, Or.inl rfl, h, hsz⟩
        · exact Or.inr ⟨p, Or.inr hp, hj, hs⟩
      · rintro (h | ⟨p, hp | hp, hj, hs⟩)
        · exact Or.inl (Or.inl h)
        · exact Or.inl (Or.inr (by rw [hp] at hj; exact hj))
        · exact Or.inr ⟨p, hp, hj, hs⟩
    · rw [if_neg hsz]
      simp only [List.mem_cons]
      constructor
      · rintro (h | ⟨p, hp, hj, hs⟩)
        · exact Or.inl h
        · exact Or.inr ⟨p, Or.inr hp, hj, hs⟩
      · rintro (h | ⟨p, hp | hp, hj, hs⟩)
        · exact Or.inl h
        · exact absurd hs (by rw [hp]; exact hsz)
        · exact Or.inr ⟨p, hp, hj, hs⟩

/-- Helper: the pairs `ForEachDeviceLocalHostVisibleHeap` visits are exactly
the in-range device-local-and-host-visible type indices paired with their
heap. -/
theorem mem_forEach (props : MemoryProperties) (p : Nat × VkMemoryHeap) :
    p ∈ ForEachDeviceLocalHostVisibleHeap props ↔
      (p.1 < props.memoryTypes.length ∧
       isDeviceLocalHostVisible (props.memoryTypes.getD p.1 ⟨0, 0⟩) = true ∧
       p.2 = props.memoryHeaps.getD
         (props.memoryTypes.getD p.1 ⟨0, 0⟩).heapIndex ⟨0⟩) := by
  unfold ForEachDeviceLocalHostVisibleHeap
  rw [List.mem_filterMap]
  constructor
  · rintro ⟨i, hi, hf⟩
    rw [List.mem_range] at hi
    simp only at hf
    by_cases hd : isDeviceLocalHostVisible (props.memoryTypes.getD i ⟨0, 0⟩)
    · rw [if_pos hd] at hf
      cases hf
      exact ⟨hi, hd, rfl⟩
    · rw [if_neg hd] at hf
      cases hf
  · rintro ⟨hlt, hd, hh⟩
    refine ⟨p.1, List.mem_range.mpr hlt, ?_⟩
    simp only [hd, if_pos, ← hh]

/-- Helper: a bit of `disallowed_memory_types_for_stream` as built by the
constructor is set exactly when a debugging tool is attached and that memory
type index is device-local, host-visible and backed by a ≤256MiB heap. -/
theorem testBit_construct (dev : DeviceModel) (j : Nat) :
    ((MemoryAllocator.construct
        dev).disallowed_memory_types_for_stream.testBit j = true) ↔
      (dev.has_debugging_tool_attached = true ∧
       ∃ p ∈ ForEachDeviceLocalHostVisibleHeap dev.memory_properties,
         p.1 = j ∧ p.2.size ≤ MiB256) := by
  unfold MemoryAllocator.construct
  by_cases hd : dev.has_debugging_tool_attached
  · simp only [hd, if_pos]
    rw [testBit_disallowed_foldl]
    simp [Nat.zero_testBit]
  · simp [hd, Nat.zero_testBit]

/-- C9: for `Stream` usage, `CreateBuffer`'s allowed memory-type mask
excludes exactly those memory types that are device-local and host-visible
with a heap of ≤ 256MiB, and only when a GPU debugging tool was attached at
allocator construction; for every other usage the mask is 0, VMA's
"all types allowed" sentinel. -/
theorem createBuffer_stream_mask (dev : DeviceModel) (i : Nat)
    (hi : i < dev.memory_properties.memoryTypes.length)
    (hcount : dev.memory_properties.memoryTypes.length ≤ 32) :
    ((((MemoryAllocator.construct dev).CreateBufferMemoryTypeBits
        MemoryUsage.Stream).testBit i = false) ↔
      (dev.has_debugging_tool_attached = true ∧
       isDeviceLocalHostVisible
         (dev.memory_properties.memoryTypes.getD i ⟨0, 0⟩) = true ∧
       (dev.memory_properties.memoryHeaps.getD
          (dev.memory_properties.memoryTypes.getD i ⟨0, 0⟩).heapIndex
          ⟨0⟩).size ≤ MiB256)) ∧
    (∀ usage, usage ≠ MemoryUsage.Stream →
      (MemoryAllocator.construct dev).CreateBufferMemoryTypeBits usage = 0) := by
  have hb : i < 32 := lt_of_lt_of_le hi hcount
  constructor
  · rw [MemoryAllocator.CreateBufferMemoryTypeBits, if_pos rfl]
    rw [Nat.testBit_xor, U32_MASK, Nat.testBit_two_pow_sub_one]
    have hex : (∃ p ∈ ForEachDeviceLocalHostVisibleHeap dev.memory_properties,
        p.1 = i ∧ p.2.size ≤ MiB256) ↔
        (isDeviceLocalHostVisible
          (dev.memory_properties.memoryTypes.getD i ⟨0, 0⟩) = true ∧
         (dev.memory_properties.memoryHeaps.getD
            (dev.memory_properties.memoryTypes.getD i ⟨0, 0⟩).heapIndex
            ⟨0⟩).size ≤ MiB256) := by
      constructor
      · rintro ⟨⟨pi, ph⟩, hp, hpi, hps⟩
        rw [mem_forEach] at hp
        obtain ⟨_, hdl, hh⟩ := hp
        simp only at hpi hps hdl hh
        subst hpi
        rw [hh] at hps
        exact ⟨hdl, hps⟩
      · rintro ⟨hdl, hs⟩
        refine ⟨(i, dev.memory_properties.memoryHeaps.getD
          (dev.memory_properties.memoryTypes.getD i ⟨0, 0⟩).heapIndex ⟨0⟩),
          ?_, rfl, hs⟩
        rw [mem_forEach]
        exact ⟨hi, hdl, rfl⟩
    have hchain : (((MemoryAllocator.construct
        dev).disallowed_memory_types_for_stream.testBit i) = true) ↔
        (dev.has_debugging_tool_attached = true ∧
         isDeviceLocalHostVisible
           (dev.memory_properties.memoryTypes.getD i ⟨0, 0⟩) = true ∧
         (dev.memory_properties.memoryHeaps.getD
            (dev.memory_properties.memoryTypes.getD i ⟨0, 0⟩).heapIndex
            ⟨0⟩).size ≤ MiB256) := by
      rw [testBit_construct]
      exact and_congr_right fun _ => hex
    rw [decide_eq_true hb, Bool.true_xor, Bool.not_eq_false', hchain]
  · intro usage hu
    rw [MemoryAllocator.CreateBufferMemoryTypeBits, if_neg hu]

/-- Witness for C9: a device with a debugging tool attached, whose memory
type 0 is device-local + host-visible on a 100-byte heap. -/
theorem createBuffer_stream_mask_witness :
    ((((MemoryAllocator.construct
        ⟨⟨[⟨3, 0⟩, ⟨1, 0⟩, ⟨3, 1⟩], [⟨100⟩, ⟨1000000000⟩]⟩,
          true⟩).CreateBufferMemoryTypeBits
        MemoryUsage.Stream).testBit 0 = false) ↔
      (true = true ∧ isDeviceLocalHostVisible ⟨3, 0⟩ = true ∧
        100 ≤ MiB256)) ∧
    (∀ usage, usage ≠ MemoryUsage.Stream →
      (MemoryAllocator.construct
        ⟨⟨[⟨3, 0⟩, ⟨1, 0⟩, ⟨3, 1⟩], [⟨100⟩, ⟨1000000000⟩]⟩,
          true⟩).CreateBufferMemoryTypeBits usage = 0) :=
  createBuffer_stream_mask
    ⟨⟨[⟨3, 0⟩, ⟨1, 0⟩, ⟨3, 1⟩], [⟨100⟩, ⟨1000000000⟩]⟩, true⟩ 0
    (by decide) (by decide)

end Vulkan
